import Mathlib

/-!
Verification of the `transformer` event pipeline (src/app.js).

Shallow embedding of the NSQ → Elasticsearch transformer module:
message validation (`isIndexableMessage`), remote lookup (`getDetails`),
the enrichment chain (`hydrateAndIndex`), the index write
(`indexToElastic`), the dispatch (`transformMessage`) and the queue
reader's message handler (`startReader`'s `on('message')` callback).

JavaScript values are modelled by the inductive `JValue` (with an
explicit `jsUndefined`), property reads and writes by `getProp` / `setProp`,
and JS truthiness by `truthy`.  Asynchronous remote calls are modelled
by passing in, per entity type, the callback triple
`(error, response, body)` that the HTTP transport would deliver; the
promise chains of `hydrateAndIndex` are sequentialised exactly as the
`.then(onOk, onErr).then(next)` structure of the source dictates.
-/

namespace Transformer

/-- Model of a JavaScript value as it occurs in this module.  `jsUndefined` is
JavaScript's `undefined` (the result of reading an absent property);
numbers are modelled as integers, which suffices because the module never
does arithmetic on them and only inspects their type tag. -/
inductive JValue where
  | jsUndefined : JValue
  | null : JValue
  | bool (b : Bool) : JValue
  | num (n : Int) : JValue
  | str (s : String) : JValue
  | arr (xs : List JValue) : JValue
  | obj (fs : List (String × JValue)) : JValue
deriving Repr

namespace JValue

/-- JavaScript truthiness of a value (`if (v)`), as used by the source's
guards.  `NaN` does not occur in this module and is not modelled. -/
def truthy : JValue → Bool
  | .jsUndefined => false
  | .null => false
  | .bool b => b
  | .num n => n != 0
  | .str s => s != ""
  | .arr _ => true
  | .obj _ => true

/-- The test `typeof v === 'object'`: true for `null`, arrays and plain objects. -/
def typeofIsObject : JValue → Bool
  | .null => true
  | .arr _ => true
  | .obj _ => true
  | _ => false

/-- Is the value a plain keyed object (not null, not an array, not a
primitive)? -/
def isObj : JValue → Bool
  | .obj _ => true
  | _ => false

/-- Strict equality `v === null`. -/
def isNull : JValue → Bool
  | .null => true
  | _ => false

/-- Strict equality `v === s` against a string literal. -/
def strictEqStr (v : JValue) (s : String) : Bool :=
  match v with
  | .str t => t = s
  | _ => false

/-- Property read `v.k`.  On a plain object it is the stored field (an
object's keys are unique, so first match); on every other value it is
`undefined`.  (In JavaScript a property read on `null`/`undefined`
throws; every such read in this module is guarded by a truthiness test,
so the `jsUndefined` default is never observed there.) -/
def getProp (v : JValue) (k : String) : JValue :=
  match v with
  | .obj fs =>
    match fs.lookup k with
    | some x => x
    | none => .jsUndefined
  | _ => .jsUndefined

/-- Update the field list of an object for assignment: replace the first
binding of `k` in place, else append (JavaScript insertion order). -/
def setField : List (String × JValue) → String → JValue → List (String × JValue)
  | [], k, x => [(k, x)]
  | (k', v') :: rest, k, x =>
    if k' = k then (k, x) :: rest else (k', v') :: setField rest k x

/-- Property assignment `v.k = x`.  On a non-object the assignment is
silently dropped (non-strict JavaScript on primitives; unreachable here
on validated messages, which are objects). -/
def setProp (v : JValue) (k : String) (x : JValue) : JValue :=
  match v with
  | .obj fs => .obj (setField fs k x)
  | other => other

/-- The count `Object.keys(v).length` for the values on which the source calls it
(objects and arrays; by the time it is called, `null` has been ruled
out). -/
def keysLength : JValue → Nat
  | .obj fs => fs.length
  | .arr xs => xs.length
  | _ => 0

end JValue

open JValue

/-! Section: Configuration defaults (`loadConfiguration`, src/app.js:20-107)

Only the fields the verified functions read are embedded. -/

/-- Default of `config.msg.keycount`. -/
def config_msg_keycount : Nat := 7

/-- Default of `config.elastic.indexprefix`. -/
def config_elastic_indexprefix : String := "events-"

/-! Section: The `date-time` format check

`isIndexableMessage` validates against a schema whose `timestamp`
property carries `format: 'date-time'`.  The `jsonschema` npm library
(not part of src/) checks that format with its anchored regexp

`^\d{4}-(0[0-9]|1[0-2])-(3[01]|0[1-9]|[12][0-9])[tT ]`
`(2[0-4]|[01][0-9]):([0-5][0-9]):(60|[0-5][0-9])(\.\d+)?`
`([zZ]|[+-]([0-5][0-9]):(60|[0-5][0-9]))$`

which the following decision procedure transcribes character class by
character class. -/

/-- One of the regexp's two-digit classes: first char in `[lo₁-hi₁]`,
second in `[lo₂-hi₂]`. -/
def twoDigits (lo₁ hi₁ lo₂ hi₂ c₁ c₂ : Char) : Bool :=
  lo₁ ≤ c₁ && c₁ ≤ hi₁ && lo₂ ≤ c₂ && c₂ ≤ hi₂

/-- The month class `(0[0-9]|1[0-2])`. -/
def monthOk (c₁ c₂ : Char) : Bool :=
  twoDigits '0' '0' '0' '9' c₁ c₂ || twoDigits '1' '1' '0' '2' c₁ c₂

/-- The day class `(3[01]|0[1-9]|[12][0-9])`. -/
def dayOk (c₁ c₂ : Char) : Bool :=
  twoDigits '3' '3' '0' '1' c₁ c₂ || twoDigits '0' '0' '1' '9' c₁ c₂ ||
    twoDigits '1' '2' '0' '9' c₁ c₂

/-- The hour class `(2[0-4]|[01][0-9])`. -/
def hourOk (c₁ c₂ : Char) : Bool :=
  twoDigits '2' '2' '0' '4' c₁ c₂ || twoDigits '0' '1' '0' '9' c₁ c₂

/-- The minute class `[0-5][0-9]`. -/
def minuteOk (c₁ c₂ : Char) : Bool :=
  twoDigits '0' '5' '0' '9' c₁ c₂

/-- The second class `(60|[0-5][0-9])`, leap second allowed. -/
def secondOk (c₁ c₂ : Char) : Bool :=
  twoDigits '6' '6' '0' '0' c₁ c₂ || twoDigits '0' '5' '0' '9' c₁ c₂

/-- The zone designator `([zZ]|[+-]([0-5][0-9]):(60|[0-5][0-9]))$`. -/
def zoneOk : List Char → Bool
  | ['z'] => true
  | ['Z'] => true
  | [sgn, z₁, z₂, ':', z₃, z₄] =>
    (sgn = '+' || sgn = '-') && minuteOk z₁ z₂ && secondOk z₃ z₄
  | _ => false

/-- The optional fraction `(\.\d+)?` followed by the zone: a dot-and-digits fraction,
then the zone designator, consuming the rest of the string. -/
def fracZoneOk : List Char → Bool
  | '.' :: rest =>
    (rest.takeWhile Char.isDigit).length > 0 &&
      zoneOk (rest.dropWhile Char.isDigit)
  | cs => zoneOk cs

/-- Whole-string match of the library's `date-time` regexp. -/
def isDateTimeChars : List Char → Bool
  | y₁ :: y₂ :: y₃ :: y₄ :: '-' :: m₁ :: m₂ :: '-' :: d₁ :: d₂ :: t ::
      h₁ :: h₂ :: ':' :: n₁ :: n₂ :: ':' :: s₁ :: s₂ :: rest =>
    y₁.isDigit && y₂.isDigit && y₃.isDigit && y₄.isDigit &&
      monthOk m₁ m₂ && dayOk d₁ d₂ && (t = 't' || t = 'T' || t = ' ') &&
      hourOk h₁ h₂ && minuteOk n₁ n₂ && secondOk s₁ s₂ && fracZoneOk rest
  | _ => false

/-- Validity of a string for `format: 'date-time'`. -/
def isDateTime (s : String) : Bool :=
  isDateTimeChars s.data

/-! Section: Schema validation (`validate(msg, config.msg.schema)`) -/

/-- Does `v.k` hold a string?  (`type: 'string', required: true`.) -/
def propIsString (v : JValue) (k : String) : Bool :=
  match getProp v k with
  | .str _ => true
  | _ => false

/-- Does `v.k` hold a number?  (`type: 'number', required: true`.) -/
def propIsNumber (v : JValue) (k : String) : Bool :=
  match getProp v k with
  | .num _ => true
  | _ => false

/-- Does `v.k` hold a `date-time`-formatted string?
(`type: 'string', format: 'date-time', required: true`.) -/
def propIsDateTime (v : JValue) (k : String) : Bool :=
  match getProp v k with
  | .str s => isDateTime s
  | _ => false

/-- The check `validate(msg, config.msg.schema).valid` for the default schema of
`loadConfiguration` (src/app.js:56-92): the instance must be a plain
object (schema `type: 'object'`, which in the `jsonschema` library
excludes `null` and arrays) and carry required string fields `id`,
`attempt_id`, `type`, `user_id`, required number fields `progress`,
`score`, and a required `date-time` string `timestamp`. -/
def validatesSchema (msg : JValue) : Bool :=
  isObj msg &&
    propIsString msg "id" &&
    propIsString msg "attempt_id" &&
    propIsNumber msg "progress" &&
    propIsNumber msg "score" &&
    propIsDateTime msg "timestamp" &&
    propIsString msg "type" &&
    propIsString msg "user_id"

/-- The validator `isIndexableMessage` (src/app.js:143-165), check for check:
the `typeof`/`null` shape test, the `Object.keys` ceiling against
`config.msg.keycount`, the schema validation, and the `type === 'FOO'`
exclusion filter. -/
def isIndexableMessage (msg : JValue) : Bool :=
  if !(typeofIsObject msg) || isNull msg then false
  else if keysLength msg > config_msg_keycount then false
  else if !(validatesSchema msg) then false
  else if strictEqStr (getProp msg "type") "FOO" then false
  else true

/-! Section: The lookup gateway (`getDetails`, src/app.js:177-219) -/

/-- The four enrichment dimensions resolved through `getDetails`
(`config.brainspark.method` maps each to a remote method name). -/
inductive EntityType where
  | attempt
  | course
  | trainee
  | user
deriving Repr, DecidableEq

/-- Outcome of the promise returned by `getDetails`: it either resolves
with a value (`null` for "no record", otherwise the extracted record) or
rejects with the transport error / bad status code. -/
inductive GDResult where
  | resolved (v : JValue) : GDResult
  | rejected (e : JValue) : GDResult
deriving Repr

/-- The `(error, response, body)` triple the HTTP client would hand to the
`request` callback if a remote call were issued.  The enrichment theorems
quantify over one such triple per entity type, covering every combination
of remote outcomes. -/
structure CallbackInput where
  error : JValue
  response : JValue
  body : JValue

/-- The test `response.statusCode < 200 || response.statusCode > 299`.  The HTTP
client always supplies a numeric `statusCode`; a non-numeric one would
compare as `NaN` in JavaScript, i.e. both comparisons false, which the
catch-all branch reproduces. -/
def statusOutside (resp : JValue) : Bool :=
  match getProp resp "statusCode" with
  | .num n => n < 200 || n > 299
  | _ => false

/-- The `request` callback body of `getDetails` (src/app.js:207-217):
reject on a truthy `error`; reject with the status code when a response
is present whose status lies outside 200-299; resolve `null` when the
body lacks `result.data` (by truthiness); otherwise resolve
`body.result.data`. -/
def getDetailsOutcome (cb : CallbackInput) : GDResult :=
  if truthy cb.error then .rejected cb.error
  else if truthy cb.response && statusOutside cb.response then
    .rejected (getProp cb.response "statusCode")
  else if !(truthy cb.body) || !(truthy (getProp cb.body "result")) ||
      !(truthy (getProp (getProp cb.body "result") "data")) then
    .resolved .null
  else
    .resolved (getProp (getProp cb.body "result") "data")

/-- The gateway `getDetails(type, id)` (src/app.js:177-219).  A falsy `id` resolves
immediately to `null` with no outbound request (the `if (!id)` guard);
otherwise one request is issued and the callback decides the outcome.
The returned `Bool` records whether a remote request was issued.  (The
generated per-call `uuid.v4()` correlation id and the request options are
payload details of the issued call and carry no information used later.) -/
def getDetails (cb : CallbackInput) (id : JValue) : GDResult × Bool :=
  if !(truthy id) then (.resolved .null, false)
  else (getDetailsOutcome cb, true)

/-! Section: The index writer (`indexToElastic`, src/app.js:122-133) -/

/-- Default of `config.elastic.type`. -/
def config_elastic_type : String := "event"

/-- JavaScript's `String.prototype.split` with a single-character
separator: the list of (possibly empty) chunks between occurrences. -/
def splitChar (sep : Char) : List Char → List (List Char)
  | [] => [[]]
  | c :: rest =>
    if c = sep then [] :: splitChar sep rest
    else
      match splitChar sep rest with
      | [] => [[c]]
      | g :: gs => (c :: g) :: gs

/-- The head chunk `s.split(sep)[0]`. -/
def jsSplitHead (s : String) (sep : Char) : String :=
  String.mk ((splitChar sep s.data).headD [])

/-- The value of `msg.timestamp` as a string.  On a validated message the
field is always a string; on anything else, `.split` would throw in
JavaScript and the document never reaches the store, so the default is
never observed downstream. -/
def timestampString (msg : JValue) : String :=
  match getProp msg "timestamp" with
  | .str s => s
  | _ => ""

/-- The document handed to `elasticClient.create`.  The store document id
is `uuid.v4()`, a fresh random identifier independent of the message; it
carries no information used by any claim and is not modelled. -/
structure IndexDoc where
  index : String
  docType : String
  body : JValue
deriving Repr

/-- The index writer `indexToElastic(msg)` (src/app.js:122-133): partition index
`config.elastic.indexprefix + msg.timestamp.split('T')[0]`, document type
`config.elastic.type`, the full message as body. -/
def indexToElastic (msg : JValue) : IndexDoc :=
  { index := config_elastic_indexprefix ++ jsSplitHead (timestampString msg) 'T'
    docType := config_elastic_type
    body := msg }

/-! Section: The enrichment orchestrator (`hydrateAndIndex`, src/app.js:228-273)

Each stage is a `.then(onResolved, onRejected)` pair: the resolved
handler attaches the record when truthy, the rejected handler only logs,
and in either case the following `.then` continues the chain, so no stage
outcome can stop a later stage or the final index write. -/

/-- The resolved/rejected handler pair of the `course`, `trainee` and
`user` stages: attach the record under `key` when the promise resolved
with a truthy value; on rejection, `console.log(err)` and leave the
message unchanged. -/
def applyStage (m : JValue) (key : String) (res : GDResult) : JValue :=
  match res with
  | .resolved v => if truthy v then setProp m key v else m
  | .rejected _ => m

/-- The `attempt` stage's handler pair (src/app.js:234-241): on a truthy
result, attach it as `attempt` and copy `course_id` and `trainee_id` out
of the freshly attached attempt record; on rejection, log and leave the
message unchanged. -/
def applyAttemptStage (m : JValue) (res : GDResult) : JValue :=
  match res with
  | .resolved v =>
    if truthy v then
      let m₁ := setProp m "attempt" v
      let m₂ := setProp m₁ "course_id" (getProp (getProp m₁ "attempt") "course_id")
      setProp m₂ "trainee_id" (getProp (getProp m₂ "attempt") "trainee_id")
    else m
  | .rejected _ => m

/-- Execution trace of one `hydrateAndIndex` run: the `getDetails`
invocations in order with their id arguments, the remote requests
actually issued in order, the final state of `fullMessage`, and the
documents handed to `indexToElastic`. -/
structure HydrateTrace where
  gdCalls : List (EntityType × JValue)
  remoteCalls : List EntityType
  finalMsg : JValue
  indexed : List IndexDoc
deriving Repr

/-- The orchestrator `hydrateAndIndex(msg)` (src/app.js:228-273), the promise chain
sequentialised: resolve `attempt` from `attempt_id`, then `course` from
the (possibly just-derived) `course_id`, then `trainee` from
`trainee_id`, then `user` from `user_id`, then index the accumulated
`fullMessage`.  `remote` supplies, per entity type, the callback triple
the transport would deliver for that stage's request. -/
def hydrateAndIndex (remote : EntityType → CallbackInput) (msg : JValue) :
    HydrateTrace :=
  let aId := getProp msg "attempt_id"
  let a := getDetails (remote .attempt) aId
  let m₁ := applyAttemptStage msg a.1
  let cId := getProp m₁ "course_id"
  let c := getDetails (remote .course) cId
  let m₂ := applyStage m₁ "course" c.1
  let tId := getProp m₂ "trainee_id"
  let t := getDetails (remote .trainee) tId
  let m₃ := applyStage m₂ "trainee" t.1
  let uId := getProp m₃ "user_id"
  let u := getDetails (remote .user) uId
  let m₄ := applyStage m₃ "user" u.1
  { gdCalls := [(.attempt, aId), (.course, cId), (.trainee, tId), (.user, uId)]
    remoteCalls :=
      (if a.2 then [EntityType.attempt] else []) ++
        (if c.2 then [EntityType.course] else []) ++
        (if t.2 then [EntityType.trainee] else []) ++
        (if u.2 then [EntityType.user] else [])
    finalMsg := m₄
    indexed := [indexToElastic m₄] }

/-! Section: Dispatch and the queue reader (src/app.js:281-306) -/

/-- Observable footprint of one `transformMessage` call: the `getDetails`
invocations, the remote lookup requests issued, and the store writes. -/
structure TransformTrace where
  gdCalls : List (EntityType × JValue)
  remoteCalls : List EntityType
  writes : List IndexDoc
deriving Repr

/-- The dispatcher `transformMessage(msg)` (src/app.js:281-285): run `hydrateAndIndex`
exactly when `isIndexableMessage` holds, otherwise do nothing. -/
def transformMessage (remote : EntityType → CallbackInput) (msg : JValue) :
    TransformTrace :=
  if isIndexableMessage msg then
    let t := hydrateAndIndex remote msg
    { gdCalls := t.gdCalls, remoteCalls := t.remoteCalls, writes := t.indexed }
  else
    { gdCalls := [], remoteCalls := [], writes := [] }

/-- Outcome of one delivery through the reader's `message` handler:
whether `msg.finish()` ran, whether an exception escaped the handler,
and the transform footprint. -/
structure HandlerResult where
  finished : Bool
  uncaught : Bool
  trace : TransformTrace
deriving Repr

/-- The `reader.on('message', ...)` handler of `startReader`
(src/app.js:298-301).  `JSON.parse(msg.body.toString())` is a runtime
primitive whose outcome is passed in as `decoded`: on success the handler
runs `transformMessage` and then `msg.finish()`; when `JSON.parse`
throws, the handler has no try/catch, so the exception propagates out
before the `msg.finish()` statement is reached. -/
def readerOnMessage (remote : EntityType → CallbackInput)
    (decoded : Except String JValue) : HandlerResult :=
  match decoded with
  | .error _ =>
    { finished := false, uncaught := true
      trace := { gdCalls := [], remoteCalls := [], writes := [] } }
  | .ok m =>
    { finished := true, uncaught := false, trace := transformMessage remote m }

/-! Section: Spec-side definitions

Decision rules transcribed from the specification's words, to be compared
with the embeddings above. -/

/-- The validity rule as the specification words it: a keyed record (not
null, not a primitive or sequence), at most `keycount` top-level keys,
required string fields `id`, `attempt_id`, `user_id`, `type`, required
numeric fields `progress`, `score`, a required date-time-formatted string
`timestamp`, and `type` not equal to the exclusion sentinel `"FOO"`. -/
def isIndexableSpec (m : JValue) : Bool :=
  isObj m &&
    decide (keysLength m ≤ config_msg_keycount) &&
    propIsString m "id" &&
    propIsString m "attempt_id" &&
    propIsString m "user_id" &&
    propIsString m "type" &&
    propIsNumber m "progress" &&
    propIsNumber m "score" &&
    propIsDateTime m "timestamp" &&
    !strictEqStr (getProp m "type") "FOO"

/-- The specification's "date portion of the timestamp": the calendar-date
prefix of the ISO-8601 string, i.e. everything before the `T`. -/
def datePortion (ts : String) : String :=
  String.mk (ts.data.takeWhile (fun c => c != 'T'))

/-- Did the promise reject? -/
def isRejectedGD : GDResult → Bool
  | .rejected _ => true
  | .resolved _ => false

/-- From the specification: a 2xx response "lacks a result payload" when
there is no body, no `result`, or no `result.data` (JavaScript
truthiness). -/
def lacksResultPayload (body : JValue) : Bool :=
  !(truthy body) || !(truthy (getProp body "result")) ||
    !(truthy (getProp (getProp body "result") "data"))

/-- The extracted record of a response body: `body.result.data`. -/
def resultData (body : JValue) : JValue :=
  getProp (getProp body "result") "data"

/-- Did a `getDetails` stage yield a record that the enrichment attaches
(`if (result)`): resolved with a truthy value? -/
def gdYields : GDResult → Bool
  | .resolved v => truthy v
  | .rejected _ => false

/-! Section: Instrumented validator for the purity claim -/

/-- Result of one instrumented `isIndexableMessage` call: the returned
boolean, the message object as the call leaves it, and the I/O the call
performed. -/
structure PureRunResult where
  value : Bool
  msgAfter : JValue
  io : List String
deriving Repr

/-- The validator `isIndexableMessage` (src/app.js:143-165) instrumented check for
check: the function only reads `msg` (no assignment occurs in its body)
and performs no I/O and no asynchronous call, so each branch passes the
message through unchanged with an empty effect list. -/
def isIndexableMessageRun (msg : JValue) : PureRunResult :=
  if !(typeofIsObject msg) || isNull msg then ⟨false, msg, []⟩
  else if keysLength msg > config_msg_keycount then ⟨false, msg, []⟩
  else if !(validatesSchema msg) then ⟨false, msg, []⟩
  else if strictEqStr (getProp msg "type") "FOO" then ⟨false, msg, []⟩
  else ⟨true, msg, []⟩

/-! Section: Concrete inputs for witnesses and counterexamples -/

/-- A schema-conforming message (the shape of the module's own test
fixture, src/app.js:362-370, with a UTC timestamp). -/
def exampleMsg : JValue := .obj [
  ("id", .str "5c92de28-14f0-449e-821b-e61e871179c2"),
  ("attempt_id", .str "e70a6ecf-f308-4306-831d-bb41c851061d"),
  ("progress", .num 0),
  ("score", .num 1),
  ("timestamp", .str "2018-01-16T14:09:51.655Z"),
  ("type", .str "PROGRESS"),
  ("user_id", .str "471de972-520c-4f44-bd6d-34cc98dd5e6e")]

/-- The same message with an eighth, unexpected top-level key. -/
def exampleMsg8Keys : JValue := .obj [
  ("id", .str "5c92de28-14f0-449e-821b-e61e871179c2"),
  ("attempt_id", .str "e70a6ecf-f308-4306-831d-bb41c851061d"),
  ("progress", .num 0),
  ("score", .num 1),
  ("timestamp", .str "2018-01-16T14:09:51.655Z"),
  ("type", .str "PROGRESS"),
  ("user_id", .str "471de972-520c-4f44-bd6d-34cc98dd5e6e"),
  ("bad_key", .str "Bad")]

/-- The same message with the excluded `type: "FOO"`, schema otherwise
satisfied. -/
def exampleMsgFOO : JValue := .obj [
  ("id", .str "5c92de28-14f0-449e-821b-e61e871179c2"),
  ("attempt_id", .str "e70a6ecf-f308-4306-831d-bb41c851061d"),
  ("progress", .num 0),
  ("score", .num 1),
  ("timestamp", .str "2018-01-16T14:09:51.655Z"),
  ("type", .str "FOO"),
  ("user_id", .str "471de972-520c-4f44-bd6d-34cc98dd5e6e")]

/-- An attempt record as the lookup service would return it. -/
def exampleAttemptRecord : JValue := .obj [
  ("course_id", .str "course-42"),
  ("trainee_id", .str "trainee-7")]

/-- A callback triple for a successful lookup answering with `record`. -/
def okCallback (record : JValue) : CallbackInput :=
  { error := .jsUndefined
    response := .obj [("statusCode", .num 200)]
    body := .obj [("result", .obj [("data", record)])] }

/-- A callback triple for a transport-level failure. -/
def failCallback : CallbackInput :=
  { error := .str "ETIMEDOUT", response := .jsUndefined, body := .jsUndefined }

/-- A remote behaviour answering every stage successfully: the attempt
stage with `exampleAttemptRecord`, every other stage with an empty
record. -/
def exampleRemote : EntityType → CallbackInput
  | .attempt => okCallback exampleAttemptRecord
  | _ => okCallback (.obj [("name", .str "someone")])

/-- A remote behaviour whose attempt stage fails at the transport and
whose other stages succeed. -/
def exampleRemoteAttemptFails : EntityType → CallbackInput
  | .attempt => failCallback
  | _ => okCallback (.obj [("name", .str "someone")])

/-! Section: Helper lemmas about property reads and writes -/

theorem setField_lookup_self (fs : List (String × JValue)) (k : String) (x : JValue) :
    (setField fs k x).lookup k = some x := by
  induction fs with
  | nil => simp [setField]
  | cons p rest ih =>
    obtain ⟨k', v'⟩ := p
    by_cases h : k' = k
    · subst h; simp [setField]
    · have hb : (k == k') = false := by
        rw [beq_eq_false_iff_ne]; exact Ne.symm h
      simp [setField, h, List.lookup, hb, ih]

theorem setField_lookup_ne (fs : List (String × JValue)) (k k' : String) (x : JValue)
    (h : k' ≠ k) : (setField fs k x).lookup k' = fs.lookup k' := by
  have hb : (k' == k) = false := by rw [beq_eq_false_iff_ne]; exact h
  induction fs with
  | nil => simp [setField, List.lookup, hb]
  | cons p rest ih =>
    obtain ⟨k₀, v₀⟩ := p
    by_cases h₀ : k₀ = k
    · subst h₀; simp [setField, List.lookup, hb]
    · simp [setField, h₀, List.lookup, ih]

theorem getProp_setProp_self (fs : List (String × JValue)) (k : String) (x : JValue) :
    getProp (setProp (.obj fs) k x) k = x := by
  simp [setProp, getProp, setField_lookup_self]

theorem getProp_setProp_of_isObj (m : JValue) (h : isObj m = true) (k : String)
    (x : JValue) : getProp (setProp m k x) k = x := by
  cases m <;> simp [isObj] at h
  exact getProp_setProp_self _ k x

theorem getProp_setProp_ne (m : JValue) (k k' : String) (x : JValue) (h : k' ≠ k) :
    getProp (setProp m k x) k' = getProp m k' := by
  cases m <;> simp [setProp, getProp, setField_lookup_ne _ _ _ _ h]

theorem isObj_setProp (m : JValue) (k : String) (x : JValue) :
    isObj (setProp m k x) = isObj m := by
  cases m <;> rfl

/-! Section: Helper lemmas about `split` -/

theorem splitChar_ne_nil (sep : Char) (cs : List Char) : splitChar sep cs ≠ [] := by
  cases cs with
  | nil => simp [splitChar]
  | cons c rest =>
    simp only [splitChar]
    by_cases h : c = sep
    · simp [h]
    · simp only [if_neg h]
      cases hs : splitChar sep rest <;> simp

theorem splitChar_headD (sep : Char) (cs : List Char) :
    (splitChar sep cs).headD [] = cs.takeWhile (fun c => c != sep) := by
  induction cs with
  | nil => rfl
  | cons c rest ih =>
    by_cases h : c = sep
    · subst h; simp [splitChar, List.takeWhile]
    · simp only [splitChar, if_neg h]
      cases hs : splitChar sep rest with
      | nil => exact absurd hs (splitChar_ne_nil sep rest)
      | cons g gs =>
        rw [hs] at ih
        simp only [List.headD] at ih ⊢
        have hb : (c != sep) = true := bne_iff_ne.mpr h
        simp [List.takeWhile, hb, ih]

/-! Section: C2 -/

/-- C2: `isIndexableMessage` returns true exactly on keyed records with
at most 7 top-level keys, required string fields `id`, `attempt_id`,
`user_id`, `type`, required numeric fields `progress`, `score`, a
required date-time string `timestamp`, and `type` different from the
exclusion sentinel `"FOO"`. -/
theorem isIndexableMessage_iff_spec (m : JValue) :
    isIndexableMessage m = isIndexableSpec m := by
  refine Bool.eq_iff_iff.mpr ?_
  cases m <;>
    simp [isIndexableMessage, isIndexableSpec, typeofIsObject, isNull, isObj,
      validatesSchema, config_msg_keycount, Nat.not_lt, keysLength]
  tauto

/-! Section: C1 -/

/-- C1 as stated is false at a payload that fails to decode: the handler
has no try/catch around `JSON.parse`, so the thrown `SyntaxError`
propagates out before the `msg.finish()` statement on src/app.js:300 is
reached, and the message is not acknowledged. -/
theorem decode_failure_not_acknowledged :
    (readerOnMessage (fun _ => failCallback)
        (.error "SyntaxError: Unexpected token")).finished = false ∧
      (readerOnMessage (fun _ => failCallback)
        (.error "SyntaxError: Unexpected token")).uncaught = true :=
  ⟨rfl, rfl⟩

/-- C1 amended: for every payload that decodes successfully, the queue
message is acknowledged (`msg.finish()` is called) whatever the remote
behaviour — acknowledgment is independent of the enrichment/indexing
outcome — but for a payload that fails to decode, the exception escapes
the handler and `finish` is not called. -/
theorem reader_ack_iff_decoded (remote : EntityType → CallbackInput)
    (m : JValue) (e : String) :
    (readerOnMessage remote (.ok m)).finished = true ∧
      (readerOnMessage remote (.error e)).finished = false :=
  ⟨rfl, rfl⟩

/-! Section: C5 and C6 -/

/-- The `request`-callback of `getDetails`, folded into the
specification's case analysis (definitional). -/
theorem getDetailsOutcome_cases (cb : CallbackInput) :
    getDetailsOutcome cb =
      if truthy cb.error then .rejected cb.error
      else if truthy cb.response && statusOutside cb.response then
        .rejected (getProp cb.response "statusCode")
      else if lacksResultPayload cb.body then .resolved .null
      else .resolved (resultData cb.body) := rfl

/-- C5: `getDetails` rejects exactly when the remote call has a transport
error or a response status outside 200-299, carrying the cause or the
status; on a non-failing call it resolves to `null` when the body lacks a
result payload and to the extracted `body.result.data` otherwise. -/
theorem getDetails_outcome_contract (cb : CallbackInput) :
    isRejectedGD (getDetailsOutcome cb) =
      (truthy cb.error || (truthy cb.response && statusOutside cb.response)) ∧
    (truthy cb.error = true → getDetailsOutcome cb = .rejected cb.error) ∧
    (truthy cb.error = false →
      (truthy cb.response && statusOutside cb.response) = true →
      getDetailsOutcome cb = .rejected (getProp cb.response "statusCode")) ∧
    (isRejectedGD (getDetailsOutcome cb) = false →
      getDetailsOutcome cb =
        if lacksResultPayload cb.body then .resolved .null
        else .resolved (resultData cb.body)) := by
  rw [getDetailsOutcome_cases cb]
  by_cases h₁ : truthy cb.error = true
  · simp [h₁, isRejectedGD]
  · rw [Bool.not_eq_true] at h₁
    by_cases h₂ : (truthy cb.response && statusOutside cb.response) = true
    · simp [h₁, h₂, isRejectedGD]
    · rw [Bool.not_eq_true] at h₂
      by_cases h₃ : lacksResultPayload cb.body = true
      · simp [h₁, h₂, h₃, isRejectedGD]
      · rw [Bool.not_eq_true] at h₃
        simp [h₁, h₂, h₃, isRejectedGD]

/-- Witness for C5 at concrete inputs: a transport error rejects with its
cause, and a 2xx response with a payload resolves to the extracted
record. -/
theorem getDetails_outcome_contract_witness :
    getDetailsOutcome failCallback = .rejected (.str "ETIMEDOUT") ∧
      getDetailsOutcome (okCallback (.str "record")) =
        if lacksResultPayload (okCallback (.str "record")).body then .resolved .null
        else .resolved (resultData (okCallback (.str "record")).body) :=
  ⟨(getDetails_outcome_contract failCallback).2.1 rfl,
    (getDetails_outcome_contract (okCallback (.str "record"))).2.2.2 rfl⟩

/-- C6: for any remote behaviour, `getDetails` called with an empty
string id or an absent (`undefined`) id resolves to `null` and issues no
remote request. -/
theorem getDetails_falsy_id_no_call (cb : CallbackInput) :
    getDetails cb (.str "") = (.resolved .null, false) ∧
      getDetails cb .jsUndefined = (.resolved .null, false) :=
  ⟨rfl, rfl⟩

/-! Section: C7 -/

/-- C7: the index writer's partition key is the configured prefix
concatenated with the calendar-date portion of the message's timestamp
(everything before the `T`); at the specification's example timestamp and
the default prefix `events-` the key is `events-2018-01-16`. -/
theorem indexToElastic_partition (msg : JValue) (ts : String)
    (h : getProp msg "timestamp" = .str ts) :
    (indexToElastic msg).index = config_elastic_indexprefix ++ datePortion ts ∧
      (indexToElastic exampleMsg).index = "events-2018-01-16" := by
  constructor
  · show config_elastic_indexprefix ++ jsSplitHead (timestampString msg) 'T' =
      config_elastic_indexprefix ++ datePortion ts
    rw [timestampString, h]
    rw [jsSplitHead, splitChar_headD, datePortion]
  · rfl

/-- Witness for C7: the partition key computed for the example message,
whose `timestamp` is `"2018-01-16T14:09:51.655Z"`. -/
theorem indexToElastic_partition_witness :
    (indexToElastic exampleMsg).index =
      config_elastic_indexprefix ++ datePortion "2018-01-16T14:09:51.655Z" :=
  (indexToElastic_partition exampleMsg "2018-01-16T14:09:51.655Z" rfl).1

/-! Section: C9 -/

/-- C9: `isIndexableMessage` is pure — it leaves the message unchanged,
performs no I/O (and, being a plain synchronous function of its argument,
never suspends), agrees with the uninstrumented embedding, and returns
the same boolean for equal inputs. -/
theorem isIndexableMessage_pure (m m' : JValue) (h : m = m') :
    (isIndexableMessageRun m).msgAfter = m ∧
      (isIndexableMessageRun m).io = [] ∧
      (isIndexableMessageRun m).value = isIndexableMessage m ∧
      isIndexableMessage m = isIndexableMessage m' := by
  subst h
  unfold isIndexableMessageRun isIndexableMessage
  refine ⟨?_, ?_, ?_, rfl⟩ <;> split_ifs <;> rfl

/-- Witness for C9 at the example message. -/
theorem isIndexableMessage_pure_witness :
    (isIndexableMessageRun exampleMsg).msgAfter = exampleMsg ∧
      (isIndexableMessageRun exampleMsg).io = [] ∧
      (isIndexableMessageRun exampleMsg).value = isIndexableMessage exampleMsg ∧
      isIndexableMessage exampleMsg = isIndexableMessage exampleMsg :=
  isIndexableMessage_pure exampleMsg exampleMsg rfl

/-! Section: Helper lemmas about the enrichment stages -/

theorem getProp_applyStage_ne (m : JValue) (key k : String) (res : GDResult)
    (h : k ≠ key) : getProp (applyStage m key res) k = getProp m k := by
  cases res with
  | resolved v =>
    by_cases hv : truthy v = true <;>
      simp [applyStage, hv, getProp_setProp_ne _ _ _ _ h]
  | rejected e => rfl

theorem applyStage_noYield (m : JValue) (key : String) (res : GDResult)
    (h : gdYields res = false) : applyStage m key res = m := by
  cases res with
  | resolved v =>
    simp only [gdYields] at h
    simp [applyStage, h]
  | rejected e => rfl

theorem applyAttemptStage_noYield (m : JValue) (res : GDResult)
    (h : gdYields res = false) : applyAttemptStage m res = m := by
  cases res with
  | resolved v =>
    simp only [gdYields] at h
    simp [applyAttemptStage, h]
  | rejected e => rfl

theorem getDetails_falsy (cb : CallbackInput) (id : JValue)
    (h : truthy id = false) : getDetails cb id = (.resolved .null, false) := by
  simp [getDetails, h]

/-- On a truthy resolved value, the attempt stage attaches the record and
copies its `course_id` and `trainee_id` into the message. -/
theorem applyAttemptStage_resolved (m v : JValue) (hm : isObj m = true)
    (hv : truthy v = true) :
    applyAttemptStage m (.resolved v) =
      setProp (setProp (setProp m "attempt" v) "course_id" (getProp v "course_id"))
        "trainee_id" (getProp v "trainee_id") := by
  have h1 : getProp (setProp m "attempt" v) "attempt" = v :=
    getProp_setProp_of_isObj _ hm _ _
  simp only [applyAttemptStage, hv, if_true, h1]
  have h2 : getProp
      (setProp (setProp m "attempt" v) "course_id" (getProp v "course_id"))
      "attempt" = v := by
    rw [getProp_setProp_ne _ _ _ _ (by decide)]; exact h1
  rw [h2]

/-! Section: C3 -/

/-- C3: for every validated message and every combination of remote
outcomes at the four stages, every stage's `getDetails` is invoked — in
particular a failure at any one stage does not prevent the other three
from being attempted — and the index write is invoked exactly once. -/
theorem hydrate_all_stages_one_write (remote : EntityType → CallbackInput)
    (msg : JValue) (_h : isIndexableMessage msg = true) :
    (hydrateAndIndex remote msg).gdCalls.map Prod.fst =
      [.attempt, .course, .trainee, .user] ∧
      (hydrateAndIndex remote msg).indexed.length = 1 := by
  constructor <;> simp [hydrateAndIndex]

/-- Witness for C3: the example message with the attempt lookup failing
at the transport still has all four stages attempted and one write. -/
theorem hydrate_all_stages_one_write_witness :
    isIndexableMessage exampleMsg = true ∧
      (hydrateAndIndex exampleRemoteAttemptFails exampleMsg).gdCalls.map Prod.fst =
        [.attempt, .course, .trainee, .user] ∧
      (hydrateAndIndex exampleRemoteAttemptFails exampleMsg).indexed.length = 1 :=
  ⟨by decide, hydrate_all_stages_one_write exampleRemoteAttemptFails exampleMsg (by decide)⟩

/-! Section: C4 -/

/-- C4: when the attempt lookup resolves to a record, its `course_id` and
`trainee_id` are copied into the message and are exactly the ids passed
to the subsequent course and trainee lookups, the user lookup still uses
the message's own `user_id`, and the four stages run in the fixed order
attempt, course, trainee, user. -/
theorem attempt_chain_order_and_keys (remote : EntityType → CallbackInput)
    (msg v : JValue) (hobj : isObj msg = true)
    (hres : (getDetails (remote .attempt) (getProp msg "attempt_id")).1 = .resolved v)
    (hv : truthy v = true) :
    (hydrateAndIndex remote msg).gdCalls =
      [(.attempt, getProp msg "attempt_id"),
       (.course, getProp v "course_id"),
       (.trainee, getProp v "trainee_id"),
       (.user, getProp msg "user_id")] ∧
      getProp (hydrateAndIndex remote msg).finalMsg "course_id" =
        getProp v "course_id" ∧
      getProp (hydrateAndIndex remote msg).finalMsg "trainee_id" =
        getProp v "trainee_id" := by
  have hO₁ : isObj (setProp msg "attempt" v) = true := by
    rw [isObj_setProp]; exact hobj
  have hO₂ : isObj (setProp (setProp msg "attempt" v) "course_id"
      (getProp v "course_id")) = true := by
    rw [isObj_setProp]; exact hO₁
  have hMc : getProp
      (setProp (setProp (setProp msg "attempt" v) "course_id" (getProp v "course_id"))
        "trainee_id" (getProp v "trainee_id")) "course_id" = getProp v "course_id" := by
    rw [getProp_setProp_ne _ _ _ _ (by decide)]
    exact getProp_setProp_of_isObj _ hO₁ _ _
  have hMt : getProp
      (setProp (setProp (setProp msg "attempt" v) "course_id" (getProp v "course_id"))
        "trainee_id" (getProp v "trainee_id")) "trainee_id" = getProp v "trainee_id" :=
    getProp_setProp_of_isObj _ hO₂ _ _
  have hMu : getProp
      (setProp (setProp (setProp msg "attempt" v) "course_id" (getProp v "course_id"))
        "trainee_id" (getProp v "trainee_id")) "user_id" = getProp msg "user_id" := by
    rw [getProp_setProp_ne _ _ _ _ (by decide), getProp_setProp_ne _ _ _ _ (by decide),
      getProp_setProp_ne _ _ _ _ (by decide)]
  simp only [hydrateAndIndex, hres, applyAttemptStage_resolved msg v hobj hv, hMc]
  simp only [hMt, hMu, getProp_applyStage_ne _ _ _ _ (by decide : "trainee_id" ≠ "course"),
    getProp_applyStage_ne _ _ _ _ (by decide : "user_id" ≠ "course"),
    getProp_applyStage_ne _ _ _ _ (by decide : "user_id" ≠ "trainee"),
    getProp_applyStage_ne _ _ _ _ (by decide : "course_id" ≠ "course"),
    getProp_applyStage_ne _ _ _ _ (by decide : "course_id" ≠ "trainee"),
    getProp_applyStage_ne _ _ _ _ (by decide : "course_id" ≠ "user"),
    getProp_applyStage_ne _ _ _ _ (by decide : "trainee_id" ≠ "trainee"),
    getProp_applyStage_ne _ _ _ _ (by decide : "trainee_id" ≠ "user")]
  exact ⟨trivial, hMc, trivial⟩

/-- Witness for C4: the example message against a remote behaviour whose
attempt lookup answers with `exampleAttemptRecord`. -/
theorem attempt_chain_order_and_keys_witness :
    (hydrateAndIndex exampleRemote exampleMsg).gdCalls =
      [(.attempt, getProp exampleMsg "attempt_id"),
       (.course, getProp exampleAttemptRecord "course_id"),
       (.trainee, getProp exampleAttemptRecord "trainee_id"),
       (.user, getProp exampleMsg "user_id")] ∧
      getProp (hydrateAndIndex exampleRemote exampleMsg).finalMsg "course_id" =
        getProp exampleAttemptRecord "course_id" ∧
      getProp (hydrateAndIndex exampleRemote exampleMsg).finalMsg "trainee_id" =
        getProp exampleAttemptRecord "trainee_id" :=
  attempt_chain_order_and_keys exampleRemote exampleMsg exampleAttemptRecord rfl rfl rfl

/-! Section: C10 -/

/-- C10: when the attempt stage yields no record (absent `attempt_id`,
failed lookup, or not found) and the message carried no `course_id` or
`trainee_id` on ingress, the course and trainee stages issue no remote
call and attach nothing, and the message is still handed to the index
writer with at most the user enrichment attached. -/
theorem attempt_missing_skips_course_trainee (remote : EntityType → CallbackInput)
    (msg : JValue)
    (hA : gdYields (getDetails (remote .attempt) (getProp msg "attempt_id")).1 = false)
    (hC : truthy (getProp msg "course_id") = false)
    (hT : truthy (getProp msg "trainee_id") = false) :
    EntityType.course ∉ (hydrateAndIndex remote msg).remoteCalls ∧
      EntityType.trainee ∉ (hydrateAndIndex remote msg).remoteCalls ∧
      (∀ k, k ≠ "user" → getProp (hydrateAndIndex remote msg).finalMsg k = getProp msg k) ∧
      (hydrateAndIndex remote msg).indexed =
        [indexToElastic (hydrateAndIndex remote msg).finalMsg] := by
  have e₁ : applyAttemptStage msg
      (getDetails (remote .attempt) (getProp msg "attempt_id")).1 = msg :=
    applyAttemptStage_noYield _ _ hA
  have e₂ : getDetails (remote .course) (getProp msg "course_id") =
      (.resolved .null, false) := getDetails_falsy _ _ hC
  have e₃ : applyStage msg "course" (.resolved .null) = msg :=
    applyStage_noYield _ _ _ rfl
  have e₄ : getDetails (remote .trainee) (getProp msg "trainee_id") =
      (.resolved .null, false) := getDetails_falsy _ _ hT
  have e₅ : applyStage msg "trainee" (.resolved .null) = msg :=
    applyStage_noYield _ _ _ rfl
  simp only [hydrateAndIndex, e₁, e₂, e₃, e₄, e₅]
  refine ⟨?_, ?_, ?_, trivial⟩
  · rcases ha : (getDetails (remote .attempt) (getProp msg "attempt_id")).2 <;>
      rcases hu : (getDetails (remote .user) (getProp msg "user_id")).2 <;>
      simp [ha, hu]
  · rcases ha : (getDetails (remote .attempt) (getProp msg "attempt_id")).2 <;>
      rcases hu : (getDetails (remote .user) (getProp msg "user_id")).2 <;>
      simp [ha, hu]
  · intro k hk
    exact getProp_applyStage_ne _ _ _ _ hk

/-- Witness for C10: the example message against a remote behaviour whose
attempt lookup fails at the transport; the message itself carries no
`course_id` or `trainee_id`. -/
theorem attempt_missing_skips_course_trainee_witness :
    EntityType.course ∉
        (hydrateAndIndex exampleRemoteAttemptFails exampleMsg).remoteCalls ∧
      EntityType.trainee ∉
        (hydrateAndIndex exampleRemoteAttemptFails exampleMsg).remoteCalls ∧
      (∀ k, k ≠ "user" →
        getProp (hydrateAndIndex exampleRemoteAttemptFails exampleMsg).finalMsg k =
          getProp exampleMsg k) ∧
      (hydrateAndIndex exampleRemoteAttemptFails exampleMsg).indexed =
        [indexToElastic (hydrateAndIndex exampleRemoteAttemptFails exampleMsg).finalMsg] :=
  attempt_missing_skips_course_trainee exampleRemoteAttemptFails exampleMsg rfl rfl rfl

/-! Section: C8 -/

/-- C8: `transformMessage` gates the pipeline on `isIndexableMessage`:
a rejected message — in particular one with an eighth unexpected
top-level key, or one with `type: "FOO"` that otherwise satisfies the
schema — triggers zero lookup calls and zero store writes, while an
accepted message starts the enrichment pipeline. -/
theorem transform_gates_pipeline (remote : EntityType → CallbackInput) (m : JValue) :
    (isIndexableMessage m = false →
      transformMessage remote m = { gdCalls := [], remoteCalls := [], writes := [] }) ∧
      (isIndexableMessage m = true →
        transformMessage remote m =
          { gdCalls := (hydrateAndIndex remote m).gdCalls
            remoteCalls := (hydrateAndIndex remote m).remoteCalls
            writes := (hydrateAndIndex remote m).indexed }) ∧
      (transformMessage remote exampleMsg8Keys).remoteCalls = [] ∧
      (transformMessage remote exampleMsg8Keys).writes = [] ∧
      (transformMessage remote exampleMsgFOO).remoteCalls = [] ∧
      (transformMessage remote exampleMsgFOO).writes = [] := by
  have h8 : isIndexableMessage exampleMsg8Keys = false := by decide
  have hFOO : isIndexableMessage exampleMsgFOO = false := by decide
  exact ⟨fun h => by simp [transformMessage, h],
    fun h => by simp [transformMessage, h],
    by simp [transformMessage, h8], by simp [transformMessage, h8],
    by simp [transformMessage, hFOO], by simp [transformMessage, hFOO]⟩

/-- Witness for C8: the FOO-typed message yields the empty footprint and
the valid example message starts the pipeline, under a remote behaviour
that fails every lookup. -/
theorem transform_gates_pipeline_witness :
    transformMessage (fun _ => failCallback) exampleMsgFOO =
        { gdCalls := [], remoteCalls := [], writes := [] } ∧
      transformMessage (fun _ => failCallback) exampleMsg =
        { gdCalls := (hydrateAndIndex (fun _ => failCallback) exampleMsg).gdCalls
          remoteCalls := (hydrateAndIndex (fun _ => failCallback) exampleMsg).remoteCalls
          writes := (hydrateAndIndex (fun _ => failCallback) exampleMsg).indexed } :=
  ⟨(transform_gates_pipeline (fun _ => failCallback) exampleMsgFOO).1 (by decide),
    (transform_gates_pipeline (fun _ => failCallback) exampleMsg).2.1 (by decide)⟩

end Transformer
